import Mathlib

/-!
Shallow embedding of the quevadis session hub (`backend/hub.go`).

Go maps (`h.users`, `h.challenges`, `h.games`) are modelled as association
lists keyed by the `id` field; map assignment is replace-or-insert and map
deletion is filtering, so list order differs from Go's (nondeterministic)
iteration order but map contents agree.  Go `int` is `Int` (no overflow in
the value ranges the program uses).  `time.Time` values are `Int` instants
threaded into the handlers that read the clock.  `*User` mutation through a
shared pointer is modelled as an in-place update of every user record with
that id.  Outbound websocket messages become a list of `(recipient user id,
message)` pairs returned by each handler.  The `go func() { time.Sleep(...);
delete(h.games, ...) }()` goroutines spawned on game end run outside the
serialized hub loop and are therefore not part of any handler's effect on
the hub state.
-/

namespace Quevadis

def MAX_STEPS : Int := 3
def INITIAL_BUDGET : Int := 20
def CHALLENGE_EXPIRY : Int := 60

structure User where
  id : String
  username : String
  inGame : Bool
  gameID : String
deriving DecidableEq

structure Challenge where
  id : String
  fromUser : String
  toUser : String
  timestamp : Int
deriving DecidableEq

structure RoundHistory where
  turn : Int
  p1Bid : Int
  p2Bid : Int
  p1NewPos : Int
  p2NewPos : Int
  result : String
deriving DecidableEq

structure Game where
  id : String
  player1 : String
  player2 : String
  turn : Int
  currentRound : Int
  status : String
  player1Pos : Int
  player2Pos : Int
  player1Balance : Int
  player2Balance : Int
  player1Bid : Option Int
  player2Bid : Option Int
  gameOver : Bool
  winner : Int
  history : List RoundHistory
  startTime : Int
  endTime : Int
deriving DecidableEq

/-- Outbound messages (`Message` in `protocol.go`), one constructor per
`type` tag actually sent by the hub. -/
inductive Msg where
  | welcome (userId username : String)
  | usersUpdate (users : List (String × String × Bool))
  | challengeReceived (challengeId fromUserId fromUsername : String)
  | challengeDeclined (challengeId : String)
  | challengeExpired (challengeId username : String)
  | gameStart (gameId opponentId opponentUsername : String) (yourPlayer : Int)
  | waitingForBids (gameId : String) (turn p1Balance p2Balance p1Position p2Position : Int)
  | roundResult (gameId : String) (turn p1Bid p2Bid p1Position p2Position p1Balance p2Balance : Int) (result : String)
  | gameEnd (gameId : String) (winner : Int) (reason : String)
  | opponentDisconnected (gameId : String)
  | rematchReceived (gameId fromUserId : String)
  | error (message : String)
deriving DecidableEq

abbrev Output := String × Msg

structure Hub where
  users : List User
  challenges : List Challenge
  games : List Game
deriving DecidableEq

def emptyHub : Hub := ⟨[], [], []⟩

def findUser (h : Hub) (uid : String) : Option User :=
  h.users.find? (fun u => u.id == uid)

def findChallenge (h : Hub) (cid : String) : Option Challenge :=
  h.challenges.find? (fun c => c.id == cid)

def findGame (h : Hub) (gid : String) : Option Game :=
  h.games.find? (fun g => g.id == gid)

/-- Go map assignment `h.users[u.ID] = u`. -/
def putUser (h : Hub) (u : User) : Hub :=
  { h with users := u :: h.users.filter (fun x => x.id != u.id) }

/-- Go map assignment `h.challenges[c.ID] = c`. -/
def putChallenge (h : Hub) (c : Challenge) : Hub :=
  { h with challenges := c :: h.challenges.filter (fun x => x.id != c.id) }

/-- Mutation of a `*Game` shared with the `h.games` map. -/
def putGame (h : Hub) (g : Game) : Hub :=
  { h with games := g :: h.games.filter (fun x => x.id != g.id) }

/-- Mutation of a `*User` shared with the `h.users` map
(e.g. `challenge.FromUser.InGame = true`). -/
def updUser (h : Hub) (uid : String) (f : User → User) : Hub :=
  { h with users := h.users.map (fun x => if x.id == uid then f x else x) }

def usernameOf (us : List User) (uid : String) : String :=
  match us.find? (fun u => u.id == uid) with
  | some u => u.username
  | none => ""

/-- `broadcastUserList`: sends the same `users_update` payload to every
live user. -/
def broadcastUserList (h : Hub) : List Output :=
  let users := h.users.map (fun u => (u.id, u.username, u.inGame))
  h.users.map (fun u => (u.id, Msg.usersUpdate users))

/-- `sendError`: an `error` envelope to a single user. -/
def sendError (u : User) (errorMsg : String) : Output :=
  (u.id, Msg.error errorMsg)

/-- `handleConnect`: register a fresh user and broadcast the user list.
The fresh uuid and generated display name are parameters of the event. -/
def handleConnect (h : Hub) (userId username : String) : Hub × List Output :=
  let user : User := ⟨userId, username, false, ""⟩
  let h1 := putUser h user
  (h1, (userId, Msg.welcome userId username) :: broadcastUserList h1)

/-- `handleDisconnect`: drop the user's games (notifying opponents of
unfinished ones), drop challenges the user is a party of (notifying
recipients of challenges the user sent), remove the user, broadcast. -/
def handleDisconnect (h : Hub) (user : User) : Hub × List Output :=
  let inIt := fun (g : Game) => g.player1 == user.id || g.player2 == user.id
  let affected := h.games.filter inIt
  let remaining := h.games.filter (fun g => !(inIt g))
  let oppOf := fun (g : Game) => if g.player1 == user.id then g.player2 else g.player1
  let users1 := affected.foldl
    (fun us g =>
      if !g.gameOver then
        us.map (fun x => if x.id == oppOf g then { x with inGame := false } else x)
      else us)
    h.users
  let gameOuts := (affected.filter (fun g => !g.gameOver)).map
    (fun g => (oppOf g, Msg.opponentDisconnected g.id))
  let chOf := fun (c : Challenge) => c.fromUser == user.id || c.toUser == user.id
  let remainingCh := h.challenges.filter (fun c => !(chOf c))
  let removedCh := h.challenges.filter chOf
  let chOuts := (removedCh.filter (fun c => c.fromUser == user.id)).map
    (fun c => (c.toUser, Msg.challengeExpired c.id (usernameOf users1 c.toUser)))
  let users2 := users1.filter (fun x => x.id != user.id)
  let h1 : Hub := ⟨users2, remainingCh, remaining⟩
  (h1, gameOuts ++ chOuts ++ broadcastUserList h1)

/-- `handleChallenge`: create a pending challenge unless the target is
unknown (silent drop), already in a game, or an identical pending
(sender, target) challenge exists. -/
def handleChallenge (h : Hub) (fromU : User) (targetUserId challengeId : String) (now : Int) :
    Hub × List Output :=
  match findUser h targetUserId with
  | none => (h, [])
  | some to_ =>
    if to_.inGame then
      (h, [sendError fromU "User is already in a game"])
    else if h.challenges.any (fun c => c.fromUser == fromU.id && c.toUser == to_.id) then
      (h, [sendError fromU "You already have a pending challenge to this user"])
    else
      let c : Challenge := ⟨challengeId, fromU.id, to_.id, now⟩
      let h1 := putChallenge h c
      (h1, [(to_.id, Msg.challengeReceived challengeId fromU.id fromU.username)])

def sendWaitingForBids (g : Game) : List Output :=
  let m := Msg.waitingForBids g.id g.currentRound g.player1Balance g.player2Balance
    g.player1Pos g.player2Pos
  [(g.player1, m), (g.player2, m)]

/-- `handleAcceptChallenge`: silently ignored unless the challenge exists
and `user` is its recipient; otherwise create the game, mark both users in
game, notify both sides, push the initial bids snapshot, delete the
challenge and broadcast.  The fresh game uuid is an event parameter. -/
def handleAcceptChallenge (h : Hub) (user : User) (challengeId gameId : String) (now : Int) :
    Hub × List Output :=
  match findChallenge h challengeId with
  | none => (h, [])
  | some challenge =>
    if challenge.toUser != user.id then (h, [])
    else
      let game : Game :=
        { id := gameId, player1 := challenge.fromUser, player2 := challenge.toUser
          turn := 1, currentRound := 1, status := "WAITING_FOR_BIDS"
          player1Pos := 0, player2Pos := 0
          player1Balance := INITIAL_BUDGET, player2Balance := INITIAL_BUDGET
          player1Bid := none, player2Bid := none
          gameOver := false, winner := 0, history := []
          startTime := now, endTime := 0 }
      let h1 := putGame h game
      let h2 := updUser h1 challenge.fromUser (fun u => { u with inGame := true, gameID := gameId })
      let h3 := updUser h2 challenge.toUser (fun u => { u with inGame := true, gameID := gameId })
      let p1Msg : Output := (challenge.fromUser,
        Msg.gameStart gameId challenge.toUser (usernameOf h3.users challenge.toUser) 1)
      let p2Msg : Output := (challenge.toUser,
        Msg.gameStart gameId challenge.fromUser (usernameOf h3.users challenge.fromUser) 2)
      let h4 := { h3 with challenges := h3.challenges.filter (fun c => c.id != challengeId) }
      (h4, p1Msg :: p2Msg :: (sendWaitingForBids game ++ broadcastUserList h4))

/-- `handleDeclineChallenge`. -/
def handleDeclineChallenge (h : Hub) (user : User) (challengeId : String) : Hub × List Output :=
  match findChallenge h challengeId with
  | none => (h, [])
  | some challenge =>
    if challenge.toUser != user.id then (h, [])
    else
      let h1 := { h with challenges := h.challenges.filter (fun c => c.id != challengeId) }
      (h1, [(challenge.fromUser, Msg.challengeDeclined challengeId)])

/-- `checkExpiredChallenges`: remove every challenge older than
`CHALLENGE_EXPIRY` seconds, notifying the sender. -/
def checkExpiredChallenges (h : Hub) (now : Int) : Hub × List Output :=
  let expired := fun (c : Challenge) => decide (now - c.timestamp > CHALLENGE_EXPIRY)
  let outs := (h.challenges.filter expired).map
    (fun c => (c.fromUser, Msg.challengeExpired c.id (usernameOf h.users c.toUser)))
  ({ h with challenges := h.challenges.filter (fun c => !(expired c)) }, outs)

/-- `checkWinCondition`: winner encoding 0 = continue, 1 = player one,
2 = player two, 3 = draw. -/
def checkWinCondition (game : Game) : Int × String :=
  if game.player1Pos ≥ MAX_STEPS then (1, "Reached final step")
  else if game.player2Pos ≥ MAX_STEPS then (2, "Reached final step")
  else if game.player1Balance == 0 && game.player2Balance == 0 then
    (if game.player1Pos > game.player2Pos then
      (1, "Bankruptcy stalemate - higher position wins")
    else if game.player2Pos > game.player1Pos then
      (2, "Bankruptcy stalemate - higher position wins")
    else (3, "Bankruptcy stalemate - draw"))
  else if game.player1Pos == 0 && game.player2Pos == 0 &&
      game.player1Balance == 0 && game.player2Balance == 0 then
    (3, "No moves possible - draw")
  else (0, "")

/-- `resolveRound`: both bids are set by the caller; the unreachable
missing-bid case (a nil deref in Go) is totalised as a no-op.  On a
terminal round the Go code additionally spawns a goroutine that sleeps
10s and deletes the game map entry outside the serialized loop; that
asynchronous deletion is not part of this handler's state effect. -/
def resolveRound (h : Hub) (game : Game) (now : Int) : Hub × List Output :=
  match game.player1Bid, game.player2Bid with
  | some p1Bid, some p2Bid =>
    let bal1 := game.player1Balance - p1Bid
    let bal2 := game.player2Balance - p2Bid
    let mv : Int × Int × String :=
      if p1Bid > p2Bid then (game.player1Pos + 1, game.player2Pos, "P1_WINS_ROUND")
      else if p2Bid > p1Bid then (game.player1Pos, game.player2Pos + 1, "P2_WINS_ROUND")
      else (game.player1Pos, game.player2Pos, "DRAW")
    let hist : RoundHistory :=
      ⟨game.currentRound, p1Bid, p2Bid, mv.1, mv.2.1, mv.2.2⟩
    let g1 := { game with
      player1Balance := bal1, player2Balance := bal2
      player1Pos := mv.1, player2Pos := mv.2.1
      history := game.history ++ [hist] }
    let roundMsg := Msg.roundResult g1.id game.currentRound p1Bid p2Bid mv.1 mv.2.1 bal1 bal2 mv.2.2
    let outs1 : List Output := [(g1.player1, roundMsg), (g1.player2, roundMsg)]
    let wr := checkWinCondition g1
    if wr.1 > 0 then
      let g2 := { g1 with gameOver := true, winner := wr.1, endTime := now, status := "GAME_OVER" }
      let h1 := putGame h g2
      let h2 := updUser h1 g2.player1 (fun u => { u with inGame := false, gameID := "" })
      let h3 := updUser h2 g2.player2 (fun u => { u with inGame := false, gameID := "" })
      let endMsg := Msg.gameEnd g2.id wr.1 wr.2
      (h3, outs1 ++ [(g2.player1, endMsg), (g2.player2, endMsg)] ++ broadcastUserList h3)
    else
      let g3 := { g1 with currentRound := g1.currentRound + 1
                          player1Bid := none, player2Bid := none
                          status := "WAITING_FOR_BIDS" }
      let h1 := putGame h g3
      (h1, outs1 ++ sendWaitingForBids g3)
  | _, _ => (h, [])

/-- `handleSubmitBid`: validate and store a bid; when both bids are
present, mark the game resolving and resolve the round. -/
def handleSubmitBid (h : Hub) (user : User) (gameId : String) (bid : Int) (now : Int) :
    Hub × List Output :=
  match findGame h gameId with
  | none => (h, [])
  | some game =>
    let playerNum : Int :=
      if game.player1 == user.id then 1
      else if game.player2 == user.id then 2
      else 0
    if playerNum = 0 then (h, [])
    else if bid < 0 then (h, [sendError user "Bid must be non-negative"])
    else
      let balance := if playerNum = 1 then game.player1Balance else game.player2Balance
      if bid > balance then (h, [sendError user "Bid exceeds your balance"])
      else
        let game1 :=
          if playerNum = 1 then { game with player1Bid := some bid }
          else { game with player2Bid := some bid }
        let h1 := putGame h game1
        if game1.player1Bid.isSome && game1.player2Bid.isSome then
          let game2 := { game1 with status := "RESOLVING" }
          let h2 := putGame h1 game2
          resolveRound h2 game2 now
        else (h1, [])

/-- `handleRematch`: forwards a rematch request to the opponent; mutates
nothing. -/
def handleRematch (h : Hub) (user : User) (gameId : String) : Hub × List Output :=
  match findGame h gameId with
  | none => (h, [])
  | some game =>
    if game.player1 == user.id then
      (h, [(game.player2, Msg.rematchReceived gameId user.id)])
    else if game.player2 == user.id then
      (h, [(game.player1, Msg.rematchReceived gameId user.id)])
    else (h, [])

/-- `handleResign`: ignored on an unknown or already-finished game or a
non-player sender; otherwise the opponent wins immediately.  The Go code
again spawns the asynchronous deferred map deletion, outside this
handler's state effect. -/
def handleResign (h : Hub) (user : User) (gameId : String) (now : Int) : Hub × List Output :=
  match findGame h gameId with
  | none => (h, [])
  | some game =>
    if game.gameOver then (h, [])
    else
      let ow : Option (String × Int) :=
        if game.player1 == user.id then some (game.player2, 2)
        else if game.player2 == user.id then some (game.player1, 1)
        else none
      match ow with
      | none => (h, [])
      | some (opponent, winner) =>
        let g2 := { game with gameOver := true, winner := winner, endTime := now
                              status := "GAME_OVER" }
        let h1 := putGame h g2
        let h2 := updUser h1 g2.player1 (fun u => { u with inGame := false, gameID := "" })
        let h3 := updUser h2 g2.player2 (fun u => { u with inGame := false, gameID := "" })
        let endMsg := Msg.gameEnd game.id winner "Opponent resigned"
        (h3, (opponent, endMsg) :: (user.id, endMsg) :: broadcastUserList h3)

/-- Events consumed by the serialized hub loop (`Hub.run`): connection
lifecycle, decoded client envelopes, and the expiry ticker.  Fresh uuids
and clock readings are event parameters. -/
inductive Event where
  | connect (userId username : String)
  | disconnect (userId : String)
  | challenge (fromId targetUserId challengeId : String) (now : Int)
  | acceptChallenge (userId challengeId gameId : String) (now : Int)
  | declineChallenge (userId challengeId : String)
  | submitBid (userId gameId : String) (bid : Int) (now : Int)
  | rematch (userId gameId : String)
  | resign (userId gameId : String) (now : Int)
  | tick (now : Int)
deriving DecidableEq

/-- One iteration of `Hub.run`: dispatch by message type.  A message from
a sender with no registered user record cannot arise over the wire
(`client.user` is set at registration); such events are no-ops. -/
def step (h : Hub) (e : Event) : Hub × List Output :=
  match e with
  | .connect uid uname => handleConnect h uid uname
  | .disconnect uid =>
    match findUser h uid with
    | none => (h, [])
    | some u => handleDisconnect h u
  | .challenge fromId targetUserId cid now =>
    match findUser h fromId with
    | none => (h, [])
    | some u => handleChallenge h u targetUserId cid now
  | .acceptChallenge uid cid gid now =>
    match findUser h uid with
    | none => (h, [])
    | some u => handleAcceptChallenge h u cid gid now
  | .declineChallenge uid cid =>
    match findUser h uid with
    | none => (h, [])
    | some u => handleDeclineChallenge h u cid
  | .submitBid uid gid bid now =>
    match findUser h uid with
    | none => (h, [])
    | some u => handleSubmitBid h u gid bid now
  | .rematch uid gid =>
    match findUser h uid with
    | none => (h, [])
    | some u => handleRematch h u gid
  | .resign uid gid now =>
    match findUser h uid with
    | none => (h, [])
    | some u => handleResign h u gid now
  | .tick now => checkExpiredChallenges h now

/-- The hub state after consuming a sequence of events, starting empty. -/
def run (evs : List Event) : Hub :=
  evs.foldl (fun h e => (step h e).1) emptyHub

/-- The hub state and every output produced while consuming a sequence of
events, starting empty. -/
def runAcc (evs : List Event) : Hub × List Output :=
  evs.foldl (fun p e => ((step p.1 e).1, p.2 ++ (step p.1 e).2)) (emptyHub, [])

/-- At most one pending challenge per ordered (sender, recipient) pair. -/
def pairBound (l : List Challenge) : Prop :=
  ∀ p q, (l.filter (fun c => c.fromUser == p && c.toUser == q)).length ≤ 1

/-- True when an output is an error envelope. -/
def isErrorOut (o : Output) : Bool :=
  match o.2 with
  | Msg.error _ => true
  | _ => false

/-- A fresh round-one game with both bids submitted, 5 versus 3. -/
def gC1 : Game :=
  ⟨"g1", "a", "b", 1, 1, "RESOLVING", 0, 0, 20, 20, some 5, some 3, false, 0, [], 0, 0⟩

/-- Fixtures for the submit-bid validation witness. -/
def userC3 : User := ⟨"u1", "Alice", true, "g1"⟩
def outsiderC3 : User := ⟨"u3", "Carol", false, ""⟩
def gameC3 : Game :=
  ⟨"g1", "u1", "u2", 1, 1, "WAITING_FOR_BIDS", 0, 0, 20, 20, none, none, false, 0, [], 0, 0⟩
def hubC3 : Hub :=
  ⟨[userC3, ⟨"u2", "Bob", true, "g1"⟩, outsiderC3], [], [gameC3]⟩

/-- Fixtures for the resign theorems: an active bidless game. -/
def userAl : User := ⟨"u1", "Alice", true, "g1"⟩
def gameC7 : Game :=
  ⟨"g1", "u1", "u2", 1, 1, "WAITING_FOR_BIDS", 0, 0, 20, 20, none, none, false, 0, [], 0, 0⟩
def hubC7 : Hub := ⟨[userAl, ⟨"u2", "Bob", true, "g1"⟩], [], [gameC7]⟩

/-- Fixture for the post-finish bid theorem: a game finished by bid
resolution (player one reached step 3) whose pending bids were left set,
still present in the match map during the retention window. -/
def userC10 : User := ⟨"u1", "Alice", false, ""⟩
def gameC10 : Game :=
  ⟨"g1", "u1", "u2", 1, 3, "GAME_OVER", 3, 0, 1, 14, some 5, some 0, true, 1,
   [⟨1, 7, 3, 1, 0, "P1_WINS_ROUND"⟩, ⟨2, 7, 3, 2, 0, "P1_WINS_ROUND"⟩,
    ⟨3, 5, 0, 3, 0, "P1_WINS_ROUND"⟩], 0, 0⟩
def hubC10 : Hub := ⟨[userC10, ⟨"u2", "Bob", false, ""⟩], [], [gameC10]⟩

/-- Trace driving a finished game's winner past MAX_STEPS: rounds 7/3,
7/3, 5/0 finish the game with player one at step 3 and stale stored bids
(5, 0); player one then bids 1 against the stale 0 and reaches step 4. -/
def c4Events : List Event :=
  [ .connect "u1" "Alice", .connect "u2" "Bob",
    .challenge "u1" "u2" "c1" 0,
    .acceptChallenge "u2" "c1" "g1" 0,
    .submitBid "u1" "g1" 7 1, .submitBid "u2" "g1" 3 1,
    .submitBid "u1" "g1" 7 2, .submitBid "u2" "g1" 3 2,
    .submitBid "u1" "g1" 5 3, .submitBid "u2" "g1" 0 3,
    .submitBid "u1" "g1" 1 4 ]

/-- Trace driving a balance negative: rounds 5/3, 5/3, 10/3 finish the
game (balances 0 and 11, stale stored bids 10 and 3); player two then bids
11, and re-resolution deducts the stale 10 from player one's zero
balance. -/
def c4bEvents : List Event :=
  [ .connect "u1" "Alice", .connect "u2" "Bob",
    .challenge "u1" "u2" "c1" 0,
    .acceptChallenge "u2" "c1" "g1" 0,
    .submitBid "u1" "g1" 5 1, .submitBid "u2" "g1" 3 1,
    .submitBid "u1" "g1" 5 2, .submitBid "u2" "g1" 3 2,
    .submitBid "u1" "g1" 10 3, .submitBid "u2" "g1" 3 3,
    .submitBid "u2" "g1" 11 4 ]

/-- Trace putting one user into two simultaneous active games: Bob
receives challenges from Alice and Carol while free, then accepts both. -/
def c6Events : List Event :=
  [ .connect "u1" "Alice", .connect "u2" "Bob", .connect "u3" "Carol",
    .challenge "u1" "u2" "c1" 0,
    .challenge "u3" "u2" "c2" 0,
    .acceptChallenge "u2" "c1" "g1" 0,
    .acceptChallenge "u2" "c2" "g2" 0 ]

/-- Scenario C of the spec: the five bid pairs (5,3), (3,6), (8,4), (5,5),
(7,2) submitted in order from a fresh 20/20 match. -/
def c8Events : List Event :=
  [ .connect "u1" "Alice", .connect "u2" "Bob",
    .challenge "u1" "u2" "c1" 0,
    .acceptChallenge "u2" "c1" "g1" 0,
    .submitBid "u1" "g1" 5 1, .submitBid "u2" "g1" 3 1,
    .submitBid "u1" "g1" 3 2, .submitBid "u2" "g1" 6 2,
    .submitBid "u1" "g1" 8 3, .submitBid "u2" "g1" 4 3,
    .submitBid "u1" "g1" 5 4, .submitBid "u2" "g1" 5 4,
    .submitBid "u1" "g1" 7 5, .submitBid "u2" "g1" 2 5 ]

/-- Fixtures for the challenge-conflict witness: Bob is in a game and an
Alice-to-Carol challenge is already pending. -/
def hubC5 : Hub :=
  ⟨[⟨"u1", "Alice", false, ""⟩, ⟨"u2", "Bob", true, "g9"⟩, ⟨"u3", "Carol", false, ""⟩],
   [⟨"c1", "u1", "u3", 0⟩], []⟩

def senderC5 : User := ⟨"u1", "Alice", false, ""⟩

/-- A short trace containing a duplicate-challenge attempt. -/
def c5Events : List Event :=
  [ .connect "u1" "Alice", .connect "u2" "Bob",
    .challenge "u1" "u2" "c1" 0, .challenge "u1" "u2" "c2" 1 ]

/-- Concrete games exercising the win-condition branches. -/
def gReached : Game :=
  ⟨"g", "a", "b", 1, 4, "RESOLVING", 3, 1, 0, 0, some 1, some 0, false, 0, [], 0, 0⟩

def gStalemate : Game :=
  ⟨"g", "a", "b", 1, 4, "RESOLVING", 2, 1, 0, 0, some 1, some 0, false, 0, [], 0, 0⟩

def gContinue : Game :=
  ⟨"g", "a", "b", 1, 4, "RESOLVING", 1, 1, 3, 0, some 1, some 0, false, 0, [], 0, 0⟩

end Quevadis

namespace Quevadis

theorem findGame_putGame (h : Hub) (g : Game) : findGame (putGame h g) g.id = some g := by
  simp [findGame, putGame, List.find?]

theorem findGame_id {h : Hub} {gid : String} {g : Game} (hf : findGame h gid = some g) :
    g.id = gid := by
  have := List.find?_some hf
  simpa using this

/-- C2: after each round resolution the win condition is evaluated with
this priority: player one reaching MAX_STEPS wins first (regardless of
balances), then player two; only otherwise, exactly when both balances are
zero, the strictly higher position wins and equal positions draw; in all
remaining cases the match continues (winner 0). -/
theorem c2_win_condition_priority (g : Game) :
    (MAX_STEPS ≤ g.player1Pos → checkWinCondition g = (1, "Reached final step")) ∧
    (g.player1Pos < MAX_STEPS → MAX_STEPS ≤ g.player2Pos →
      checkWinCondition g = (2, "Reached final step")) ∧
    (g.player1Pos < MAX_STEPS → g.player2Pos < MAX_STEPS →
      g.player1Balance = 0 → g.player2Balance = 0 →
      ((g.player2Pos < g.player1Pos →
          checkWinCondition g = (1, "Bankruptcy stalemate - higher position wins")) ∧
       (g.player1Pos < g.player2Pos →
          checkWinCondition g = (2, "Bankruptcy stalemate - higher position wins")) ∧
       (g.player1Pos = g.player2Pos →
          checkWinCondition g = (3, "Bankruptcy stalemate - draw")))) ∧
    (g.player1Pos < MAX_STEPS → g.player2Pos < MAX_STEPS →
      ¬(g.player1Balance = 0 ∧ g.player2Balance = 0) →
      checkWinCondition g = (0, "")) := by
  unfold checkWinCondition MAX_STEPS
  refine ⟨?_, ?_, ?_, ?_⟩
  · intro h1
    rw [if_pos h1]
  · intro h1 h2
    rw [if_neg (by omega), if_pos h2]
  · intro h1 h2 hb1 hb2
    refine ⟨?_, ?_, ?_⟩ <;> intro hp
    · rw [if_neg (by omega), if_neg (by omega),
        if_pos (by simp [hb1, hb2]), if_pos hp]
    · rw [if_neg (by omega), if_neg (by omega),
        if_pos (by simp [hb1, hb2]), if_neg (by omega), if_pos hp]
    · rw [if_neg (by omega), if_neg (by omega),
        if_pos (by simp [hb1, hb2]), if_neg (by omega), if_neg (by omega)]
  · intro h1 h2 hb
    rw [if_neg (by omega), if_neg (by omega)]
    rw [if_neg (by rw [Bool.and_eq_true, beq_iff_eq, beq_iff_eq]; tauto)]
    rw [if_neg (by simp only [Bool.and_eq_true, beq_iff_eq]; tauto)]

/-- Witness for C2 at concrete games covering each branch. -/
theorem c2_win_condition_priority_witness :
    checkWinCondition gReached = (1, "Reached final step") ∧
    checkWinCondition gStalemate = (1, "Bankruptcy stalemate - higher position wins") ∧
    checkWinCondition gContinue = (0, "") :=
  ⟨(c2_win_condition_priority _).1 (by decide),
   ((c2_win_condition_priority _).2.2.1 (by decide) (by decide) (by decide) (by decide)).1
     (by decide),
   (c2_win_condition_priority _).2.2.2 (by decide) (by decide) (by decide)⟩

theorem findGame_updUser (h : Hub) (uid : String) (f : User → User) (gid : String) :
    findGame (updUser h uid f) gid = findGame h gid := rfl

/-- C1: when both bids are submitted, round resolution subtracts each
player's own bid from their own balance regardless of outcome; a strictly
higher bid advances that player's position by exactly one with the
corresponding result tag, a tie advances neither with tag DRAW, and the
round outcome (round number, both bids, both resulting positions, tag) is
appended to the match history. -/
theorem c1_round_resolution (h : Hub) (g : Game) (b1 b2 now : Int)
    (hb1 : g.player1Bid = some b1) (hb2 : g.player2Bid = some b2)
    (hv1 : 0 ≤ b1) (hv1b : b1 ≤ g.player1Balance)
    (hv2 : 0 ≤ b2) (hv2b : b2 ≤ g.player2Balance) :
    ∃ g', findGame (resolveRound h g now).1 g.id = some g' ∧
      g'.player1Balance = g.player1Balance - b1 ∧
      g'.player2Balance = g.player2Balance - b2 ∧
      (b2 < b1 → g'.player1Pos = g.player1Pos + 1 ∧ g'.player2Pos = g.player2Pos ∧
        g'.history = g.history ++
          [⟨g.currentRound, b1, b2, g.player1Pos + 1, g.player2Pos, "P1_WINS_ROUND"⟩]) ∧
      (b1 < b2 → g'.player1Pos = g.player1Pos ∧ g'.player2Pos = g.player2Pos + 1 ∧
        g'.history = g.history ++
          [⟨g.currentRound, b1, b2, g.player1Pos, g.player2Pos + 1, "P2_WINS_ROUND"⟩]) ∧
      (b1 = b2 → g'.player1Pos = g.player1Pos ∧ g'.player2Pos = g.player2Pos ∧
        g'.history = g.history ++
          [⟨g.currentRound, b1, b2, g.player1Pos, g.player2Pos, "DRAW"⟩]) := by
  unfold resolveRound
  rw [hb1, hb2]
  simp only
  split_ifs with h1 h2 h3 h4 h5 <;>
    refine ⟨_, by simp only [findGame_updUser]; exact findGame_putGame h _,
      rfl, rfl, ?_, ?_, ?_⟩ <;>
    intro hc <;> first | exact ⟨rfl, rfl, rfl⟩ | (exfalso; omega)

/-- Witness for C1 at a concrete resolving game, bids 5 versus 3. -/
theorem c1_round_resolution_witness :
    ∃ g', findGame (resolveRound emptyHub gC1 7).1 gC1.id = some g' ∧
      g'.player1Balance = gC1.player1Balance - 5 ∧
      g'.player2Balance = gC1.player2Balance - 3 ∧
      ((3 : Int) < 5 → g'.player1Pos = gC1.player1Pos + 1 ∧ g'.player2Pos = gC1.player2Pos ∧
        g'.history = gC1.history ++
          [⟨gC1.currentRound, 5, 3, gC1.player1Pos + 1, gC1.player2Pos, "P1_WINS_ROUND"⟩]) ∧
      ((5 : Int) < 3 → g'.player1Pos = gC1.player1Pos ∧ g'.player2Pos = gC1.player2Pos + 1 ∧
        g'.history = gC1.history ++
          [⟨gC1.currentRound, 5, 3, gC1.player1Pos, gC1.player2Pos + 1, "P2_WINS_ROUND"⟩]) ∧
      ((5 : Int) = 3 → g'.player1Pos = gC1.player1Pos ∧ g'.player2Pos = gC1.player2Pos ∧
        g'.history = gC1.history ++
          [⟨gC1.currentRound, 5, 3, gC1.player1Pos, gC1.player2Pos, "DRAW"⟩]) :=
  c1_round_resolution emptyHub gC1 5 3 7 rfl rfl (by decide) (by decide) (by decide) (by decide)

end Quevadis

namespace Quevadis

/-- C3: a submit_bid for an unknown match, or from a non-player, is
silently dropped with no state change; a bid outside [0, that player's
current balance] draws an error envelope to the sender only with no state
change; an in-range bid is stored for the submitting player (shown here
with the opponent's bid still pending, where storing is the only
effect). -/
theorem c3_submit_bid_validation (h : Hub) (user : User) (gid : String) (bid now : Int) :
    (findGame h gid = none → handleSubmitBid h user gid bid now = (h, [])) ∧
    (∀ g, findGame h gid = some g → g.player1 ≠ user.id → g.player2 ≠ user.id →
      handleSubmitBid h user gid bid now = (h, [])) ∧
    (∀ g, findGame h gid = some g → g.player1 = user.id → bid < 0 →
      handleSubmitBid h user gid bid now = (h, [sendError user "Bid must be non-negative"])) ∧
    (∀ g, findGame h gid = some g → g.player1 ≠ user.id → g.player2 = user.id → bid < 0 →
      handleSubmitBid h user gid bid now = (h, [sendError user "Bid must be non-negative"])) ∧
    (∀ g, findGame h gid = some g → g.player1 = user.id → 0 ≤ bid → g.player1Balance < bid →
      handleSubmitBid h user gid bid now = (h, [sendError user "Bid exceeds your balance"])) ∧
    (∀ g, findGame h gid = some g → g.player1 ≠ user.id → g.player2 = user.id → 0 ≤ bid →
      g.player2Balance < bid →
      handleSubmitBid h user gid bid now = (h, [sendError user "Bid exceeds your balance"])) ∧
    (∀ g, findGame h gid = some g → g.player1 = user.id → 0 ≤ bid → bid ≤ g.player1Balance →
      g.player2Bid = none →
      handleSubmitBid h user gid bid now =
        (putGame h { g with player1Bid := some bid }, [])) ∧
    (∀ g, findGame h gid = some g → g.player1 ≠ user.id → g.player2 = user.id → 0 ≤ bid →
      bid ≤ g.player2Balance → g.player1Bid = none →
      handleSubmitBid h user gid bid now =
        (putGame h { g with player2Bid := some bid }, [])) := by
  refine ⟨?_, ?_, ?_, ?_, ?_, ?_, ?_, ?_⟩
  · intro hf
    unfold handleSubmitBid
    rw [hf]
  · intro g hf hp1 hp2
    unfold handleSubmitBid
    rw [hf]
    simp [beq_iff_eq, hp1, hp2]
  · intro g hf hp1 hb
    unfold handleSubmitBid
    rw [hf]
    simp [beq_iff_eq, hp1, hb]
  · intro g hf hp1 hp2 hb
    unfold handleSubmitBid
    rw [hf]
    simp [beq_iff_eq, hp1, hp2, hb]
  · intro g hf hp1 h0 hbal
    unfold handleSubmitBid
    rw [hf]
    simp [beq_iff_eq, hp1, h0.not_lt, hbal]
  · intro g hf hp1 hp2 h0 hbal
    unfold handleSubmitBid
    rw [hf]
    simp [beq_iff_eq, hp1, hp2, h0.not_lt, hbal]
  · intro g hf hp1 h0 hbal hn
    unfold handleSubmitBid
    rw [hf]
    simp [beq_iff_eq, hp1, h0.not_lt, hbal.not_lt, hn]
  · intro g hf hp1 hp2 h0 hbal hn
    unfold handleSubmitBid
    rw [hf]
    simp [beq_iff_eq, hp1, hp2, h0.not_lt, hbal.not_lt, hn]

/-- Witness for C3: unknown match, outsider, negative bid, over-balance
bid, and a stored in-range bid, on a concrete hub. -/
theorem c3_submit_bid_validation_witness :
    handleSubmitBid hubC3 userC3 "nope" 5 0 = (hubC3, []) ∧
    handleSubmitBid hubC3 outsiderC3 "g1" 5 0 = (hubC3, []) ∧
    handleSubmitBid hubC3 userC3 "g1" (-1) 0 =
      (hubC3, [sendError userC3 "Bid must be non-negative"]) ∧
    handleSubmitBid hubC3 userC3 "g1" 21 0 =
      (hubC3, [sendError userC3 "Bid exceeds your balance"]) ∧
    handleSubmitBid hubC3 userC3 "g1" 5 0 =
      (putGame hubC3 { gameC3 with player1Bid := some 5 }, []) :=
  ⟨(c3_submit_bid_validation hubC3 userC3 "nope" 5 0).1 (by decide),
   (c3_submit_bid_validation hubC3 outsiderC3 "g1" 5 0).2.1 gameC3
     (by decide) (by decide) (by decide),
   (c3_submit_bid_validation hubC3 userC3 "g1" (-1) 0).2.2.1 gameC3
     (by decide) (by decide) (by decide),
   (c3_submit_bid_validation hubC3 userC3 "g1" 21 0).2.2.2.2.1 gameC3
     (by decide) (by decide) (by decide) (by decide),
   (c3_submit_bid_validation hubC3 userC3 "g1" 5 0).2.2.2.2.2.2.1 gameC3
     (by decide) (by decide) (by decide) (by decide) (by decide)⟩

/-- Counterexample for C7 as frozen: the resignation end message carries
reason "Opponent resigned" (capital O), not "opponent resigned". -/
theorem c7_resign_reason_counterexample :
    (handleResign hubC7 userAl "g1" 5).2.head? =
      some ("u2", Msg.gameEnd "g1" 2 "Opponent resigned") ∧
    ¬((handleResign hubC7 userAl "g1" 5).2.head? =
      some ("u2", Msg.gameEnd "g1" 2 "opponent resigned")) := by
  decide

/-- C7 as amended: resigning a known unfinished match as a player declares
the opponent immediate winner with reason "Opponent resigned", marks the
match over with the end timestamp, appends nothing to the history, clears
both players' inGame flags and game-id references, and sends game_end to
both players; a resign on an already-finished match is ignored.  No bid
hypothesis appears, so this holds when no bid was ever submitted. -/
theorem c7_resign_teardown (h : Hub) (user : User) (gid : String) (now : Int) :
    (∀ g, findGame h gid = some g → g.gameOver = true →
      handleResign h user gid now = (h, [])) ∧
    (∀ g, findGame h gid = some g → g.gameOver = false → g.player1 = user.id →
      ∃ g', findGame (handleResign h user gid now).1 g.id = some g' ∧
        g'.gameOver = true ∧ g'.winner = 2 ∧ g'.status = "GAME_OVER" ∧
        g'.endTime = now ∧ g'.history = g.history ∧
        (∀ u ∈ (handleResign h user gid now).1.users,
          u.id = g.player1 ∨ u.id = g.player2 → u.inGame = false ∧ u.gameID = "") ∧
        (handleResign h user gid now).2.take 2 =
          [(g.player2, Msg.gameEnd g.id 2 "Opponent resigned"),
           (user.id, Msg.gameEnd g.id 2 "Opponent resigned")]) ∧
    (∀ g, findGame h gid = some g → g.gameOver = false → g.player1 ≠ user.id →
      g.player2 = user.id →
      ∃ g', findGame (handleResign h user gid now).1 g.id = some g' ∧
        g'.gameOver = true ∧ g'.winner = 1 ∧ g'.status = "GAME_OVER" ∧
        g'.endTime = now ∧ g'.history = g.history ∧
        (∀ u ∈ (handleResign h user gid now).1.users,
          u.id = g.player1 ∨ u.id = g.player2 → u.inGame = false ∧ u.gameID = "") ∧
        (handleResign h user gid now).2.take 2 =
          [(g.player1, Msg.gameEnd g.id 1 "Opponent resigned"),
           (user.id, Msg.gameEnd g.id 1 "Opponent resigned")]) := by
  refine ⟨?_, ?_, ?_⟩
  · intro g hf hgo
    unfold handleResign
    rw [hf]
    simp [hgo]
  · intro g hf hgo hp1
    unfold handleResign
    rw [hf]
    simp only [hgo, Bool.false_eq_true, if_false, beq_iff_eq, hp1, if_true]
    refine ⟨⟨g.id, user.id, g.player2, g.turn, g.currentRound, "GAME_OVER", g.player1Pos,
        g.player2Pos, g.player1Balance, g.player2Balance, g.player1Bid, g.player2Bid,
        true, 2, g.history, g.startTime, now⟩,
      by simp only [findGame_updUser]; exact findGame_putGame h _,
      rfl, rfl, rfl, rfl, rfl, ?_, rfl⟩
    intro u hu hor
    simp only [updUser, putGame, List.mem_map] at hu
    obtain ⟨y, ⟨x, hx, rfl⟩, rfl⟩ := hu
    by_cases h1 : x.id = user.id <;> by_cases h2 : x.id = g.player2 <;> simp_all
  · intro g hf hgo hp1 hp2
    unfold handleResign
    rw [hf]
    simp only [hgo, Bool.false_eq_true, if_false, beq_iff_eq, if_neg hp1, hp2, if_true]
    refine ⟨⟨g.id, g.player1, user.id, g.turn, g.currentRound, "GAME_OVER", g.player1Pos,
        g.player2Pos, g.player1Balance, g.player2Balance, g.player1Bid, g.player2Bid,
        true, 1, g.history, g.startTime, now⟩,
      by simp only [findGame_updUser]; exact findGame_putGame h _,
      rfl, rfl, rfl, rfl, rfl, ?_, rfl⟩
    intro u hu hor
    simp only [updUser, putGame, List.mem_map] at hu
    obtain ⟨y, ⟨x, hx, rfl⟩, rfl⟩ := hu
    by_cases h1 : x.id = g.player1 <;> by_cases h2 : x.id = user.id <;> simp_all

/-- Witness for C7 amended, resigning a fresh bidless game. -/
theorem c7_resign_teardown_witness :
    ∃ g', findGame (handleResign hubC7 userAl "g1" 5).1 gameC7.id = some g' ∧
      g'.gameOver = true ∧ g'.winner = 2 ∧ g'.status = "GAME_OVER" ∧
      g'.endTime = 5 ∧ g'.history = gameC7.history ∧
      (∀ u ∈ (handleResign hubC7 userAl "g1" 5).1.users,
        u.id = gameC7.player1 ∨ u.id = gameC7.player2 → u.inGame = false ∧ u.gameID = "") ∧
      (handleResign hubC7 userAl "g1" 5).2.take 2 =
        [(gameC7.player2, Msg.gameEnd gameC7.id 2 "Opponent resigned"),
         (userAl.id, Msg.gameEnd gameC7.id 2 "Opponent resigned")] :=
  (c7_resign_teardown hubC7 userAl "g1" 5).2.1 gameC7 (by decide) (by decide) (by decide)

end Quevadis

namespace Quevadis

theorem broadcast_mem_not_error (h : Hub) :
    ∀ (a : String) (b : Msg), (a, b) ∈ broadcastUserList h →
      (match b with | Msg.error _ => true | _ => false) = false := by
  intro a b hm
  obtain ⟨u, hu, he⟩ := List.mem_map.1 hm
  cases he
  rfl

set_option maxHeartbeats 1000000 in
/-- C10: a submit_bid on a finished game still in the match map, from a
player with a bid in range of that player's current balance, is not
rejected: it is stored, and because the final resolution left both pending
bids set, the round resolves again, deducting the new bid and the
opponent's stale bid from the balances, advancing the winner's position on
a strictly higher bid, and appending a fresh history entry; no error
envelope is emitted. -/
theorem c10_post_finish_bid_resolves (h : Hub) (g : Game) (user : User) (gid : String)
    (bid b1 b2 now : Int)
    (hf : findGame h gid = some g) (hgo : g.gameOver = true)
    (hb1 : g.player1Bid = some b1) (hb2 : g.player2Bid = some b2) :
    (g.player1 = user.id → 0 ≤ bid → bid ≤ g.player1Balance →
      ∃ g', findGame (handleSubmitBid h user gid bid now).1 g.id = some g' ∧
        g'.history.length = g.history.length + 1 ∧
        g'.player1Balance = g.player1Balance - bid ∧
        g'.player2Balance = g.player2Balance - b2 ∧
        (b2 < bid → g'.player1Pos = g.player1Pos + 1) ∧
        (handleSubmitBid h user gid bid now).2.all (fun o => !(isErrorOut o)) = true) ∧
    (g.player1 ≠ user.id → g.player2 = user.id → 0 ≤ bid → bid ≤ g.player2Balance →
      ∃ g', findGame (handleSubmitBid h user gid bid now).1 g.id = some g' ∧
        g'.history.length = g.history.length + 1 ∧
        g'.player1Balance = g.player1Balance - b1 ∧
        g'.player2Balance = g.player2Balance - bid ∧
        (b1 < bid → g'.player2Pos = g.player2Pos + 1) ∧
        (handleSubmitBid h user gid bid now).2.all (fun o => !(isErrorOut o)) = true) := by
  constructor
  · intro hp1 h0 hbal
    unfold handleSubmitBid
    rw [hf]
    simp only [beq_iff_eq, hp1, eq_self_iff_true, if_true, h0.not_lt, hbal.not_lt,
      if_false, one_ne_zero, hb2, Option.isSome_some, Bool.and_self]
    unfold resolveRound
    simp only
    split_ifs with h1 h2 h3 h4 h5 <;>
      refine ⟨_, by simp only [findGame_updUser]; exact findGame_putGame _ _,
        by simp, rfl, rfl, ?_, ?_⟩ <;>
      first
        | (intro hc; first | rfl | (exfalso; omega))
        | (simp [List.all_append, isErrorOut, sendWaitingForBids]; done)
        | (simp [List.all_append, isErrorOut, sendWaitingForBids];
           exact broadcast_mem_not_error _)
  · intro hp1 hp2 h0 hbal
    have e20 : ((2 : Int) = 0) ↔ False := by norm_num
    have e21 : ((2 : Int) = 1) ↔ False := by norm_num
    unfold handleSubmitBid
    rw [hf]
    simp only [beq_iff_eq, hp1, hp2, eq_self_iff_true, if_true, if_false, e20, e21,
      h0.not_lt, hbal.not_lt, hb1, Option.isSome_some, Bool.and_self]
    unfold resolveRound
    simp only
    split_ifs with h1 h2 h3 h4 h5 <;>
      refine ⟨_, by simp only [findGame_updUser]; exact findGame_putGame _ _,
        by simp, rfl, rfl, ?_, ?_⟩ <;>
      first
        | (intro hc; first | rfl | (exfalso; omega))
        | (simp [List.all_append, isErrorOut, sendWaitingForBids]; done)
        | (simp [List.all_append, isErrorOut, sendWaitingForBids];
           exact broadcast_mem_not_error _)

/-- Witness for C10: player one bids 1 against the stale stored 0 on the
finished fixture game, reaching position 4. -/
theorem c10_post_finish_bid_resolves_witness :
    ∃ g', findGame (handleSubmitBid hubC10 userC10 "g1" 1 9).1 gameC10.id = some g' ∧
      g'.history.length = gameC10.history.length + 1 ∧
      g'.player1Balance = gameC10.player1Balance - 1 ∧
      g'.player2Balance = gameC10.player2Balance - 0 ∧
      ((0 : Int) < 1 → g'.player1Pos = gameC10.player1Pos + 1) ∧
      (handleSubmitBid hubC10 userC10 "g1" 1 9).2.all (fun o => !(isErrorOut o)) = true :=
  (c10_post_finish_bid_resolves hubC10 gameC10 userC10 "g1" 1 5 0 9 (by decide) (by decide)
    (by decide) (by decide)).1 (by decide) (by decide) (by decide)

/-- C4 fails on the code: through handled messages alone a player's
position reaches 4 (beyond MAX_STEPS = 3) and a balance reaches -10,
because a finished-but-retained match accepts further bids and re-resolves
with stale stored bids. -/
theorem c4_reachable_violation :
    (findGame (run c4Events) "g1").map Game.player1Pos = some 4 ∧
    ¬((findGame (run c4Events) "g1").map Game.player1Pos = some MAX_STEPS) ∧
    (findGame (run c4bEvents) "g1").map Game.player1Balance = some (-10) := by
  decide

/-- C6 fails on the code: after Bob accepts challenges from both Alice and
Carol, he is a player of two distinct unfinished matches, because
handleAcceptChallenge never re-checks whether either party is already in a
game. -/
theorem c6_double_match_violation :
    (findGame (run c6Events) "g1").map (fun g => (g.player1, g.player2, g.gameOver)) =
      some ("u1", "u2", false) ∧
    (findGame (run c6Events) "g2").map (fun g => (g.player1, g.player2, g.gameOver)) =
      some ("u3", "u2", false) := by
  decide

/-- Counterexample for C8 as frozen: submitting the five scenario bid
pairs leaves player one at position 2 with the match unfinished, not at
position 3 with the match won. -/
theorem c8_scenario_counterexample :
    (findGame (run c8Events) "g1").map (fun g => (g.player1Pos, g.gameOver)) =
      some (2, false) ∧
    ¬((findGame (run c8Events) "g1").map (fun g => (g.player1Pos, g.gameOver, g.winner)) =
      some (3, true, 1)) := by
  decide

/-- C8 as amended: only rounds one to three resolve (positions 2 and 1,
balances 4 and 7, round counter 4, player two's bid 2 pending); player
one's round-four bid 5 and round-five bid 7 exceed the remaining balance 4
and are rejected with exactly two balance errors. -/
theorem c8_scenario_actual :
    findGame (run c8Events) "g1" = some
      ⟨"g1", "u1", "u2", 1, 4, "WAITING_FOR_BIDS", 2, 1, 4, 7, none, some 2, false, 0,
       [⟨1, 5, 3, 1, 0, "P1_WINS_ROUND"⟩, ⟨2, 3, 6, 1, 1, "P2_WINS_ROUND"⟩,
        ⟨3, 8, 4, 2, 1, "P1_WINS_ROUND"⟩], 0, 0⟩ ∧
    (runAcc c8Events).2.count ("u1", Msg.error "Bid exceeds your balance") = 2 := by
  decide

end Quevadis

namespace Quevadis

theorem pairBound_sublist {l l' : List Challenge} (hs : List.Sublist l' l)
    (hb : pairBound l) : pairBound l' := by
  intro p q
  exact le_trans (hs.filter _).length_le (hb p q)

theorem challenges_handleConnect (h : Hub) (a b : String) :
    (handleConnect h a b).1.challenges = h.challenges := rfl

theorem challenges_handleDisconnect (h : Hub) (u : User) :
    List.Sublist (handleDisconnect h u).1.challenges h.challenges :=
  List.filter_sublist _

theorem challenges_checkExpired (h : Hub) (now : Int) :
    List.Sublist (checkExpiredChallenges h now).1.challenges h.challenges :=
  List.filter_sublist _

theorem challenges_resolveRound (h : Hub) (g : Game) (now : Int) :
    (resolveRound h g now).1.challenges = h.challenges := by
  unfold resolveRound
  cases hb1 : g.player1Bid <;> cases hb2 : g.player2Bid <;>
    first | rfl | (simp only; split_ifs <;> rfl)

theorem challenges_handleSubmitBid (h : Hub) (u : User) (gid : String) (bid now : Int) :
    (handleSubmitBid h u gid bid now).1.challenges = h.challenges := by
  unfold handleSubmitBid
  cases hf : findGame h gid
  · rfl
  · simp only
    split_ifs <;> first | rfl | (exact challenges_resolveRound _ _ _)

theorem challenges_handleResign (h : Hub) (u : User) (gid : String) (now : Int) :
    (handleResign h u gid now).1.challenges = h.challenges := by
  unfold handleResign
  cases hf : findGame h gid
  · rfl
  · simp only
    split_ifs <;> rfl

theorem hub_handleRematch (h : Hub) (u : User) (gid : String) :
    (handleRematch h u gid).1 = h := by
  unfold handleRematch
  cases hf : findGame h gid
  · rfl
  · simp only
    split_ifs <;> rfl

theorem challenges_handleAccept (h : Hub) (u : User) (cid gid : String) (now : Int) :
    List.Sublist (handleAcceptChallenge h u cid gid now).1.challenges h.challenges := by
  unfold handleAcceptChallenge
  cases hf : findChallenge h cid
  · exact List.Sublist.refl _
  · simp only
    split_ifs
    · exact List.Sublist.refl _
    · exact List.filter_sublist _

theorem challenges_handleDecline (h : Hub) (u : User) (cid : String) :
    List.Sublist (handleDeclineChallenge h u cid).1.challenges h.challenges := by
  unfold handleDeclineChallenge
  cases hf : findChallenge h cid
  · exact List.Sublist.refl _
  · simp only
    split_ifs
    · exact List.Sublist.refl _
    · exact List.filter_sublist _

theorem pairBound_handleChallenge (h : Hub) (fromU : User) (tid cid : String) (now : Int)
    (hb : pairBound h.challenges) :
    pairBound (handleChallenge h fromU tid cid now).1.challenges := by
  unfold handleChallenge
  cases hfu : findUser h tid with
  | none => exact hb
  | some tu =>
    simp only
    by_cases hig : tu.inGame = true
    · rw [if_pos hig]
      exact hb
    · rw [if_neg hig]
      by_cases hdup :
          (h.challenges.any (fun c => c.fromUser == fromU.id && c.toUser == tu.id)) = true
      · rw [if_pos hdup]
        exact hb
      · rw [if_neg hdup]
        intro p q
        show (List.filter _
          ((⟨cid, fromU.id, tu.id, now⟩ : Challenge) ::
            h.challenges.filter (fun x => x.id != cid))).length ≤ 1
        rw [List.filter_cons]
        by_cases hc0 : (((⟨cid, fromU.id, tu.id, now⟩ : Challenge).fromUser == p) &&
            ((⟨cid, fromU.id, tu.id, now⟩ : Challenge).toUser == q)) = true
        · rw [if_pos hc0]
          have hpq : fromU.id = p ∧ tu.id = q := by simpa using hc0
          obtain ⟨hp, hq⟩ := hpq
          subst hp
          subst hq
          have hnil : h.challenges.filter
              (fun c => c.fromUser == fromU.id && c.toUser == tu.id) = [] := by
            refine List.filter_eq_nil_iff.2 ?_
            intro a ha hpa
            exact hdup (by rw [List.any_eq_true]; exact ⟨a, ha, hpa⟩)
          have hsub := ((List.filter_sublist
              (p := fun x => x.id != cid) h.challenges).filter
              (fun c => c.fromUser == fromU.id && c.toUser == tu.id)).length_le
          rw [hnil] at hsub
          simp only [List.length_cons, List.length_nil, Nat.le_zero] at hsub ⊢
          omega
        · rw [if_neg hc0]
          exact le_trans ((List.filter_sublist _).filter _).length_le (hb p q)

theorem pairBound_step (h : Hub) (e : Event) (hb : pairBound h.challenges) :
    pairBound (step h e).1.challenges := by
  cases e with
  | connect uid uname =>
    show pairBound (handleConnect h uid uname).1.challenges
    rw [challenges_handleConnect]
    exact hb
  | disconnect uid =>
    cases hfu : findUser h uid
    · simpa [step, hfu] using hb
    · simp only [step, hfu]
      exact pairBound_sublist (challenges_handleDisconnect _ _) hb
  | challenge fromId tid cid now =>
    cases hfu : findUser h fromId
    · simpa [step, hfu] using hb
    · simp only [step, hfu]
      exact pairBound_handleChallenge _ _ _ _ _ hb
  | acceptChallenge uid cid gid now =>
    cases hfu : findUser h uid
    · simpa [step, hfu] using hb
    · simp only [step, hfu]
      exact pairBound_sublist (challenges_handleAccept _ _ _ _ _) hb
  | declineChallenge uid cid =>
    cases hfu : findUser h uid
    · simpa [step, hfu] using hb
    · simp only [step, hfu]
      exact pairBound_sublist (challenges_handleDecline _ _ _) hb
  | submitBid uid gid bid now =>
    cases hfu : findUser h uid
    · simpa [step, hfu] using hb
    · simp only [step, hfu]
      rw [challenges_handleSubmitBid]
      exact hb
  | rematch uid gid =>
    cases hfu : findUser h uid
    · simpa [step, hfu] using hb
    · simp only [step, hfu]
      rw [hub_handleRematch]
      exact hb
  | resign uid gid now =>
    cases hfu : findUser h uid
    · simpa [step, hfu] using hb
    · simp only [step, hfu]
      rw [challenges_handleResign]
      exact hb
  | tick now =>
    show pairBound (checkExpiredChallenges h now).1.challenges
    exact pairBound_sublist (challenges_checkExpired _ _) hb

theorem pairBound_foldl (evs : List Event) :
    ∀ h : Hub, pairBound h.challenges →
      pairBound (evs.foldl (fun h e => (step h e).1) h).challenges := by
  induction evs with
  | nil =>
    intro h hb
    exact hb
  | cons e rest ih =>
    intro h hb
    simp only [List.foldl_cons]
    exact ih _ (pairBound_step h e hb)

theorem pairBound_run (evs : List Event) : pairBound (run evs).challenges :=
  pairBound_foldl evs emptyHub (by intro p q; simp [emptyHub, pairBound])

/-- C5: a challenge whose target is already in a game, or that duplicates
a pending challenge with the same ordered (sender, recipient) pair, fails
with an error envelope to the sender only and no state mutation; and in
every state reachable from the empty hub by any event sequence, at most
one pending challenge exists per ordered (sender, recipient) pair. -/
theorem c5_challenge_conflict_and_uniqueness :
    (∀ (h : Hub) (fromU tu : User) (tid cid : String) (now : Int),
      findUser h tid = some tu → tu.inGame = true →
      handleChallenge h fromU tid cid now =
        (h, [sendError fromU "User is already in a game"])) ∧
    (∀ (h : Hub) (fromU tu : User) (tid cid : String) (now : Int),
      findUser h tid = some tu → tu.inGame = false →
      (h.challenges.any (fun c => c.fromUser == fromU.id && c.toUser == tu.id)) = true →
      handleChallenge h fromU tid cid now =
        (h, [sendError fromU "You already have a pending challenge to this user"])) ∧
    (∀ evs : List Event, pairBound (run evs).challenges) := by
  refine ⟨?_, ?_, pairBound_run⟩
  · intro h fromU tu tid cid now hfu hig
    unfold handleChallenge
    rw [hfu]
    simp [hig]
  · intro h fromU tu tid cid now hfu hig hdup
    unfold handleChallenge
    rw [hfu]
    simp [hig, hdup]

/-- Witness for C5: both conflict errors on a concrete hub, and the pair
bound on a concrete trace with a duplicate-challenge attempt. -/
theorem c5_challenge_conflict_and_uniqueness_witness :
    handleChallenge hubC5 senderC5 "u2" "c9" 3 =
      (hubC5, [sendError senderC5 "User is already in a game"]) ∧
    handleChallenge hubC5 senderC5 "u3" "c9" 3 =
      (hubC5, [sendError senderC5 "You already have a pending challenge to this user"]) ∧
    pairBound (run c5Events).challenges :=
  ⟨c5_challenge_conflict_and_uniqueness.1 hubC5 senderC5 ⟨"u2", "Bob", true, "g9"⟩
      "u2" "c9" 3 (by decide) (by decide),
   c5_challenge_conflict_and_uniqueness.2.1 hubC5 senderC5 ⟨"u3", "Carol", false, ""⟩
      "u3" "c9" 3 (by decide) (by decide) (by decide),
   c5_challenge_conflict_and_uniqueness.2.2 c5Events⟩

end Quevadis
